import Mathlib

/-!
Verification of the fixture-based conformance harness specified for the
`py-lintro` test-sample repository, together with the Rust sample code
under `src/test_samples`.

The repository's own source files are static fixture samples; the harness
(fixture store, tool invoker, diagnostic parser, conformance checker) is
specified but its code is not under `src/`, so those components are
modelled from the spec, faithful to its words.  The Rust functions of the
clean Clippy sample (`process_data`, `Person::new`, `Person::get_name`)
are embedded directly from `src/test_samples/tools/rust/clippy/src/main.rs`.
-/

/-- Modelled from the spec: the error taxonomy of section 7 — LoadError,
InvocationError, TimeoutError, ParseError. -/
inductive HarnessError where
  | loadError
  | invocationError
  | timeoutError
  | parseError
deriving DecidableEq, Repr

/-- Modelled from the spec: a Fixture — identity, raw source text, expected
violation tags, the "exact match required" marking, and the explicit "clean"
control-sample marking (section 3 invariant, section 6 metadata format). -/
structure Fixture where
  name : String
  source : String
  expected_tags : List String
  exactMatch : Bool
  clean : Bool
deriving DecidableEq, Repr

/-- Modelled from the spec: a ToolRun — exit code, captured output (as a
list of lines), wall-clock duration, plus the timeout marking the invoker
attaches when the sentinel path was taken. -/
structure ToolRun where
  exitCode : Int
  stdoutLines : List String
  stderrLines : List String
  duration : Nat
  timedOut : Bool
deriving DecidableEq, Repr

/-- Modelled from the spec: a ViolationReport — violation tags extracted
from a ToolRun, each occurrence carrying a (line, column) pair, the
occurrence list insertion-ordered. -/
structure ViolationReport where
  occurrences : List (String × Nat × Nat)
deriving DecidableEq, Repr

/-- The observed violation-tag set of a report (insertion order kept;
set semantics is by membership). -/
def ViolationReport.tags (r : ViolationReport) : List String :=
  r.occurrences.map Prod.fst

/-- Modelled from the spec: a ConformanceResult — per-fixture pass/fail
with the symmetric difference (missing vs. unexpected tags) recorded, the
warnings logged for extra tags, and the underlying error recorded as the
reason when a check short-circuits. -/
structure ConformanceResult where
  passed : Bool
  missing : List String
  unexpected : List String
  warnings : List String
  reason : Option HarnessError
deriving DecidableEq, Repr

/-- Boolean subset test on tag lists (set semantics by membership). -/
def tagSubset (xs ys : List String) : Bool :=
  xs.all fun t => ys.contains t

/-- Modelled from the spec: `check(Fixture, ViolationReport) ->
ConformanceResult` (section 4.4).  A fixture passes if its expected-tag set
is a subset of the observed-tag set; extra violations are logged as
warnings, not failures, unless the fixture is marked "exact match
required"; a fixture marked clean passes only if the observed set is
empty. -/
def check (f : Fixture) (r : ViolationReport) : ConformanceResult :=
  let obs := r.tags
  let missing := f.expected_tags.filter fun t => !obs.contains t
  let unexpected := obs.filter fun t => !f.expected_tags.contains t
  let passed :=
    if f.clean then obs.isEmpty
    else if f.exactMatch then missing.isEmpty && unexpected.isEmpty
    else missing.isEmpty
  { passed := passed
    missing := missing
    unexpected := unexpected
    warnings := if f.clean || f.exactMatch then [] else unexpected
    reason := none }

/-- The ConformanceResult recorded when a fixture's processing fails at the
Invoked or Parsed stage: Checked{Fail} with the underlying error as the
reason. -/
def failResult (e : HarnessError) : ConformanceResult :=
  { passed := false, missing := [], unexpected := [], warnings := []
    reason := some e }

/-- Modelled from the spec: raw fixture metadata as declared out-of-band —
a mapping entry `{expected_tags, exact}` plus the explicit clean marking
required by the section 3 invariant. -/
structure RawMeta where
  expected_tags : List String
  exactMatch : Bool
  clean : Bool
deriving DecidableEq, Repr

/-- Modelled from the spec: a raw on-disk fixture entry before loading —
its identifier, its source text when present, and its metadata when
present and well-formed. -/
structure RawEntry where
  id : String
  source : Option String
  meta : Option RawMeta
deriving DecidableEq, Repr

/-- Modelled from the spec: loading one fixture entry.  Fails with
LoadError when the metadata is malformed or missing; malformed includes an
empty expected-tag set without the explicit clean marking (never implied
accidentally) and a clean marking alongside declared expected tags (a
clean fixture expects zero violations). -/
def loadEntry (e : RawEntry) : Except HarnessError Fixture :=
  match e.meta, e.source with
  | none, _ => .error .loadError
  | _, none => .error .loadError
  | some m, some src =>
    if m.expected_tags.isEmpty && !m.clean then .error .loadError
    else if m.clean && !m.expected_tags.isEmpty then .error .loadError
    else .ok { name := e.id, source := src
               expected_tags := m.expected_tags
               exactMatch := m.exactMatch, clean := m.clean }

/-- Modelled from the spec: `load(directory) -> ordered sequence of
Fixture`, a LoadError being fatal for that fixture only (the suite
continues with the rest). -/
def load (entries : List RawEntry) : List (Except HarnessError Fixture) :=
  entries.map loadEntry

/-- Character-level prefix test, used by the line grammars. -/
def strStarts (s pre : String) : Bool :=
  pre.toList.isPrefixOf s.toList

/-- Drop the first `n` characters of a string. -/
def strAfter (s : String) (n : Nat) : String :=
  String.mk (s.toList.drop n)

/-- Modelled from the spec: one parser variant of the polymorphic
Diagnostic Parser — a declared tool identity, a per-line recognizer for
the tool's framing (its schema), and a per-line extractor of a violation
tag plus (line, column). -/
structure ParserVariant where
  tool : String
  schemaLine : String → Bool
  extractLine : String → Option (String × Nat × Nat)
deriving Inhabited

/-- Modelled from the spec: the lint variant — named rule identifiers per
line, Clippy-style `warning: clippy::<tag>` lines (17 characters of
prefix before the tag). -/
def clippyVariant : ParserVariant :=
  { tool := "clippy"
    schemaLine := fun l =>
      strStarts l "warning: clippy::" || strStarts l "Checking" ||
        strStarts l "Finished"
    extractLine := fun l =>
      if strStarts l "warning: clippy::" then
        some (String.mk ((l.toList.drop 17).takeWhile fun c => c ≠ ' '), 0, 0)
      else none }

/-- Modelled from the spec: the style-checker variant — pure formatting
diffs with no rule tags; the presence of any diff is itself the signal,
reported under the single tag `formatting_diff`. -/
def rustfmtVariant : ParserVariant :=
  { tool := "rustfmt"
    schemaLine := fun l => strStarts l "Diff in"
    extractLine := fun l =>
      if strStarts l "Diff in" then some ("formatting_diff", 0, 0) else none }

/-- Modelled from the spec: the supported tool families. -/
def knownVariants : List ParserVariant :=
  [clippyVariant, rustfmtVariant]

/-- A ToolRun's output matches a variant's schema when it is empty (a
clean run) or some line shows the tool's framing; unrecognized lines in
between are banners to be ignored. -/
def schemaOk (v : ParserVariant) (lines : List String) : Bool :=
  lines.isEmpty || lines.any v.schemaLine

/-- Whether the output matches the schema of a known tool with the
declared identity. -/
def matchesKnownSchema (tool : String) (lines : List String) : Bool :=
  knownVariants.any fun v => v.tool == tool && schemaOk v lines

/-- Modelled from the spec: `parse(tool_identity, ToolRun) ->
ViolationReport`, the variant selected by declared tool identity; fails
with ParseError when the output matches no known tool's schema;
unrecognized lines are ignored, not treated as errors. -/
def parse (tool : String) (run : ToolRun) : Except HarnessError ViolationReport :=
  match knownVariants.find? (fun v => v.tool == tool) with
  | none => .error .parseError
  | some v =>
    if schemaOk v run.stdoutLines then
      .ok ⟨run.stdoutLines.filterMap v.extractLine⟩
    else .error .parseError

/-- Modelled from the spec: a tool configuration — the tool name and the
per-invocation timeout. -/
structure ToolConfig where
  toolName : String
  timeoutSec : Nat
deriving DecidableEq, Repr

/-- Modelled from the spec: the (opaque-subprocess) behaviour of one tool
invocation — how long it would run, what it would exit with, and the lines
it emits (one line per elapsed second of running time). -/
structure ToolBehavior where
  duration : Nat
  exitCode : Int
  outputLines : List String
  stderrLines : List String
deriving DecidableEq, Repr

/-- The sentinel exit code the invoker records on timeout. -/
def timeoutSentinel : Int := 124

/-- Modelled from the spec: the Tool Invoker's `run(tool_config, fixture)`
enforcing the per-invocation timeout.  On timeout it produces a ToolRun
with the sentinel exit code and the partial output emitted by the
deadline (modelled as one line per elapsed second); otherwise the tool's
own exit code and full output.  Total by construction: it never waits past
the deadline. -/
def runTool (cfg : ToolConfig) (b : ToolBehavior) : ToolRun :=
  if cfg.timeoutSec < b.duration then
    { exitCode := timeoutSentinel
      stdoutLines := b.outputLines.take cfg.timeoutSec
      stderrLines := b.stderrLines.take cfg.timeoutSec
      duration := cfg.timeoutSec
      timedOut := true }
  else
    { exitCode := b.exitCode
      stdoutLines := b.outputLines
      stderrLines := b.stderrLines
      duration := b.duration
      timedOut := false }

/-- Modelled from the spec: the per-fixture state machine
`Loaded -> Invoked -> Parsed -> Checked{Pass|Fail}` (section 4.4).  The
Invoked and Parsed states carry the outcome produced at that stage, so a
failure there is part of the state the short-circuit leaves from. -/
inductive PState where
  | loaded (f : Fixture)
  | invoked (f : Fixture) (r : Except HarnessError ToolRun)
  | parsed (f : Fixture) (r : Except HarnessError ViolationReport)
  | checked (res : ConformanceResult)
deriving Repr

/-- The rank of a state in the `Loaded -> Invoked -> Parsed -> Checked`
chain. -/
def PState.rank : PState → Nat
  | .loaded _ => 0
  | .invoked _ _ => 1
  | .parsed _ _ => 2
  | .checked _ => 3

/-- The fixture a non-terminal state carries. -/
def PState.fixtureOf : PState → Option Fixture
  | .loaded f => some f
  | .invoked f _ => some f
  | .parsed f _ => some f
  | .checked _ => none

/-- The failure, if any, pending at a state: an invocation error, a
timed-out invocation, or a parse error. -/
def PState.failureOf : PState → Option HarnessError
  | .invoked _ (.error e) => some e
  | .invoked _ (.ok run) => if run.timedOut then some .timeoutError else none
  | .parsed _ (.error e) => some e
  | _ => none

/-- One allowed transition of the per-fixture state machine: either the
next state in the chain (rank increases by exactly one) from a state with
no pending failure, or the short-circuit from a failed Invoked or Parsed
state directly to Checked{Fail} with the underlying error recorded as the
reason. -/
def allowedStep (s t : PState) : Prop :=
  (t.rank = s.rank + 1 ∧ s.failureOf = none) ∨
    (∃ e, s.failureOf = some e ∧ t = .checked (failResult e))

/-- Modelled from the spec: the full processing trace of one fixture,
parameterized by the invoker and the parser in use.  It walks
`Loaded -> Invoked -> Parsed -> Checked`, short-circuiting to
Checked{Fail} on an invocation error, a timeout, or a parse error. -/
def fixtureTrace (inv : Fixture → Except HarnessError ToolRun)
    (prs : ToolRun → Except HarnessError ViolationReport)
    (f : Fixture) : List PState :=
  PState.loaded f ::
    match inv f with
    | .error e => [PState.invoked f (.error e), PState.checked (failResult e)]
    | .ok run =>
      PState.invoked f (.ok run) ::
        if run.timedOut then
          [PState.checked (failResult .timeoutError)]
        else
          match prs run with
          | .error e =>
            [PState.parsed f (.error e), PState.checked (failResult e)]
          | .ok rep =>
            [PState.parsed f (.ok rep), PState.checked (check f rep)]

/-- Modelled from the spec: the ConformanceResult of processing one
fixture — the result the trace's final Checked state carries. -/
def checkFixture (inv : Fixture → Except HarnessError ToolRun)
    (prs : ToolRun → Except HarnessError ViolationReport)
    (f : Fixture) : ConformanceResult :=
  match inv f with
  | .error e => failResult e
  | .ok run =>
    if run.timedOut then failResult .timeoutError
    else
      match prs run with
      | .error e => failResult e
      | .ok rep => check f rep

/-- Modelled from the spec: a suite run processes every fixture; a
per-fixture failure never aborts the remaining fixtures. -/
def runSuite (inv : Fixture → Except HarnessError ToolRun)
    (prs : ToolRun → Except HarnessError ViolationReport)
    (fs : List Fixture) : List ConformanceResult :=
  fs.map (checkFixture inv prs)

/-- Modelled from the spec: the CLI exit code — 0 if all fixtures pass, 1
if any fail, 2 on a harness-level error (e.g. tool not found during
setup). -/
def suiteExitCode (setup : Except HarnessError (List Fixture))
    (inv : Fixture → Except HarnessError ToolRun)
    (prs : ToolRun → Except HarnessError ViolationReport) : Nat :=
  match setup with
  | .error _ => 2
  | .ok fs => if (runSuite inv prs fs).all (·.passed) then 0 else 1

/-- Two's-complement wrap of an integer into the `i32` range, the release
semantics of Rust arithmetic on `i32`. -/
def wrap32 (x : Int) : Int :=
  (x + 2 ^ 31) % 2 ^ 32 - 2 ^ 31

/-- From `src/test_samples/tools/rust/clippy/src/main.rs`:
`process_data` filters the `i32` elements strictly greater than zero and
doubles each, `i32` multiplication wrapping on overflow. -/
def process_data (data : List Int) : List Int :=
  (data.filter fun x => decide (0 < x)).map fun x => wrap32 (x * 2)

/-- From `src/test_samples/tools/rust/clippy/src/main.rs`: the `Person`
struct — a name and a `u32` age. -/
structure Person where
  name : String
  age : Nat
deriving DecidableEq, Repr

/-- From `src/test_samples/tools/rust/clippy/src/main.rs`:
`Person::new(name, age)`. -/
def Person.new (name : String) (age : Nat) : Person :=
  { name := name, age := age }

/-- From `src/test_samples/tools/rust/clippy/src/main.rs`:
`Person::get_name` returns a reference to the stored name. -/
def Person.get_name (p : Person) : String :=
  p.name

deriving instance DecidableEq for Except

/-- The concrete fixture of the spec's first scenario: expected tag set
`{"unused_variable"}`, non-exact, not clean. -/
def unusedVariableFixture : Fixture :=
  { name := "unused-variable-sample"
    source := "fn unused_variable() \x7b let x = 42; \x7d"
    expected_tags := ["unused_variable"]
    exactMatch := false
    clean := false }

/-- The report the parser observes in the spec's first scenario: tags
`{"unused_variable", "needless_return"}`. -/
def unusedVariableReport : ViolationReport :=
  ⟨[("unused_variable", 34, 9), ("needless_return", 7, 5)]⟩

/-- The concrete clean fixture of the spec's second scenario: expected
tags `{}`, explicitly marked clean. -/
def cleanFixture : Fixture :=
  { name := "clean-sample"
    source := "fn main() \x7b println!(\"Hello, world!\"); \x7d"
    expected_tags := []
    exactMatch := false
    clean := true }

/-- The two sample fixture entries, as the Fixture Store would see them on
disk. -/
def sampleEntries : List RawEntry :=
  [{ id := "unused-variable-sample"
     source := some "fn unused_variable() \x7b let x = 42; \x7d"
     meta := some { expected_tags := ["unused_variable"]
                    exactMatch := false, clean := false } },
   { id := "clean-sample"
     source := some "fn main() \x7b println!(\"Hello, world!\"); \x7d"
     meta := some { expected_tags := [], exactMatch := false, clean := true } }]

/-- A concrete ToolRun whose output mixes one recognized warning line with
an unrecognized banner line. -/
def bannersRun : ToolRun :=
  { exitCode := 1
    stdoutLines := ["warning: clippy::unused_variable --> src/main.rs:34:9",
                    "Checking clippy_violations v0.1.0"]
    stderrLines := []
    duration := 1
    timedOut := false }

/-- A concrete deterministic invoker used for the idempotence witness. -/
def sampleInvoker : Fixture → Except HarnessError ToolRun :=
  fun _ => Except.ok bannersRun

/-- The Clippy instance of the Diagnostic Parser. -/
def clippyParse : ToolRun → Except HarnessError ViolationReport :=
  parse "clippy"

/-- A tool behaviour that runs for five seconds. -/
def slowBehavior : ToolBehavior :=
  { duration := 5
    exitCode := 0
    outputLines := ["warning: clippy::unused_variable", "late line"]
    stderrLines := [] }

/-- A configuration with a one-second per-invocation timeout. -/
def shortTimeoutConfig : ToolConfig :=
  { toolName := "clippy", timeoutSec := 1 }

lemma check_passed_subset (f : Fixture) (r : ViolationReport)
    (hclean : f.clean = false) (hexact : f.exactMatch = false) :
    (check f r).passed = true ↔ tagSubset f.expected_tags r.tags = true := by
  simp only [check, hclean, hexact, Bool.false_eq_true, if_false, tagSubset]
  simp [List.isEmpty_iff, List.filter_eq_nil_iff, List.all_eq_true]

lemma wrap32_double_eq {x : Int} (h0 : 0 < x) (h1 : x < 2 ^ 30) :
    wrap32 (x * 2) = x * 2 := by
  simp only [wrap32]
  norm_num at h1 ⊢
  omega

/-- C1 (counterexample): the subset policy does not hold for every
non-exact fixture: the clean control fixture is non-exact and its empty
expected-tag set is a subset of the observed set `{"identity_op"}`, yet
`check` yields Fail, as the clean rule overrides the subset rule. -/
theorem C1_counterexample :
    cleanFixture.exactMatch = false ∧
    tagSubset cleanFixture.expected_tags
      (ViolationReport.tags ⟨[("identity_op", 141, 13)]⟩) = true ∧
    (check cleanFixture ⟨[("identity_op", 141, 13)]⟩).passed = false := by
  decide

/-- C1 (amended): for every fixture neither marked "exact match required"
nor marked clean, `check` yields Pass exactly when the expected-tag set is
a subset of the observed-tag set; observed tags outside the expected set
are recorded as warnings, never as failures.  For the fixture expecting
`{"unused_variable"}` with observed `{"unused_variable",
"needless_return"}`, non-exact mode yields Pass and exact mode yields
Fail. -/
theorem C1_subset_policy (f : Fixture) (r : ViolationReport)
    (hclean : f.clean = false) (hexact : f.exactMatch = false) :
    ((check f r).passed = true ↔ tagSubset f.expected_tags r.tags = true) ∧
    (check f r).warnings =
      r.tags.filter (fun t => !f.expected_tags.contains t) ∧
    (check unusedVariableFixture unusedVariableReport).passed = true ∧
    (check { unusedVariableFixture with exactMatch := true }
        unusedVariableReport).passed = false := by
  refine ⟨check_passed_subset f r hclean hexact, ?_, by decide, by decide⟩
  simp [check, hclean, hexact]

/-- C1 (witness): the amended subset policy evaluated on the
unused-variable scenario fixture. -/
theorem C1_subset_policy_witness :
    (check unusedVariableFixture unusedVariableReport).passed = true ↔
      tagSubset unusedVariableFixture.expected_tags
        unusedVariableReport.tags = true :=
  (C1_subset_policy unusedVariableFixture unusedVariableReport rfl rfl).1

/-- C2: for every fixture marked clean, `check` yields Pass if and only if
the observed violation-tag set is empty; in particular the clean sample
passes on an empty observation and fails on `{"identity_op"}`. -/
theorem C2_clean_policy (f : Fixture) (r : ViolationReport)
    (hclean : f.clean = true) :
    ((check f r).passed = true ↔ r.tags = []) ∧
    (check cleanFixture ⟨[]⟩).passed = true ∧
    (check cleanFixture ⟨[("identity_op", 141, 13)]⟩).passed = false := by
  refine ⟨?_, by decide, by decide⟩
  simp [check, hclean, List.isEmpty_iff]

/-- C2 (witness): the clean policy evaluated on the clean sample with the
observed set `{"identity_op"}`. -/
theorem C2_clean_policy_witness :
    (check cleanFixture ⟨[("identity_op", 141, 13)]⟩).passed = true ↔
      ViolationReport.tags ⟨[("identity_op", 141, 13)]⟩ = [] :=
  (C2_clean_policy cleanFixture ⟨[("identity_op", 141, 13)]⟩ rfl).1

/-- C3: every per-fixture processing trace starts at Loaded, ends at
Checked, and each transition either moves exactly one step along
`Loaded -> Invoked -> Parsed -> Checked` from a failure-free state or
short-circuits from a failed Invoked or Parsed state directly to
Checked{Fail} with the underlying error recorded as the reason. -/
theorem C3_state_machine (inv : Fixture → Except HarnessError ToolRun)
    (prs : ToolRun → Except HarnessError ViolationReport) (f : Fixture) :
    (fixtureTrace inv prs f).head? = some (PState.loaded f) ∧
    List.Chain' allowedStep (fixtureTrace inv prs f) ∧
    (fixtureTrace inv prs f).getLast? =
      some (PState.checked (checkFixture inv prs f)) := by
  unfold fixtureTrace checkFixture
  cases hinv : inv f with
  | error e =>
    refine ⟨rfl, ?_, rfl⟩
    simp [List.chain'_cons, allowedStep, PState.failureOf, PState.rank]
  | ok run =>
    cases hto : run.timedOut with
    | true =>
      refine ⟨rfl, ?_, ?_⟩
      · simp [hto, List.chain'_cons, allowedStep, PState.failureOf,
          PState.rank]
      · simp [hto]
    | false =>
      cases hprs : prs run with
      | error e =>
        refine ⟨rfl, ?_, ?_⟩
        · simp [hto, hprs, List.chain'_cons, allowedStep, PState.failureOf,
            PState.rank]
        · simp [hto, hprs]
      | ok rep =>
        refine ⟨rfl, ?_, ?_⟩
        · simp [hto, hprs, List.chain'_cons, allowedStep, PState.failureOf,
            PState.rank]
        · simp [hto, hprs]

/-- C4: every Fixture produced by `load` is marked clean or has a
non-empty expected-tag set — an empty set never arises without the
explicit clean marking — and no processing step after load changes the
fixture: every non-terminal trace state carries it unchanged. -/
theorem C4_load_invariant (entries : List RawEntry) (f : Fixture)
    (h : Except.ok f ∈ load entries) :
    (f.clean || !f.expected_tags.isEmpty) = true ∧
    (∀ (inv : Fixture → Except HarnessError ToolRun)
       (prs : ToolRun → Except HarnessError ViolationReport) (s : PState),
       s ∈ fixtureTrace inv prs f →
       s.fixtureOf = none ∨ s.fixtureOf = some f) := by
  constructor
  · simp only [load, List.mem_map] at h
    obtain ⟨e, _, he⟩ := h
    unfold loadEntry at he
    rcases e with ⟨id, src, meta⟩
    rcases meta with _ | m
    · simp at he
    rcases src with _ | s
    · simp at he
    simp only at he
    by_cases h1 : m.expected_tags.isEmpty && !m.clean
    · simp [h1] at he
    · rw [if_neg h1] at he
      by_cases h2 : m.clean && !m.expected_tags.isEmpty
      · simp [h2] at he
      · rw [if_neg h2] at he
        rw [Except.ok.injEq] at he
        subst he
        by_cases hc : m.clean
        · simp [hc]
        · simp only [Bool.not_eq_true] at hc
          simp only [hc, Bool.false_or]
          by_cases hnil : m.expected_tags.isEmpty
          · exact absurd (by simp [hnil, hc]) h1
          · simp [hnil]
  · intro inv prs s hs
    unfold fixtureTrace at hs
    cases hinv : inv f with
    | error e =>
      simp only [hinv, List.mem_cons, List.not_mem_nil, or_false] at hs
      rcases hs with rfl | rfl | rfl <;> simp [PState.fixtureOf]
    | ok run =>
      cases hto : run.timedOut with
      | true =>
        simp only [hinv, hto, if_true, List.mem_cons, List.not_mem_nil,
          or_false] at hs
        rcases hs with rfl | rfl | rfl <;> simp [PState.fixtureOf]
      | false =>
        cases hprs : prs run with
        | error e =>
          simp only [hinv, hto, hprs, Bool.false_eq_true, if_false,
            List.mem_cons, List.not_mem_nil, or_false] at hs
          rcases hs with rfl | rfl | rfl | rfl <;> simp [PState.fixtureOf]
        | ok rep =>
          simp only [hinv, hto, hprs, Bool.false_eq_true, if_false,
            List.mem_cons, List.not_mem_nil, or_false] at hs
          rcases hs with rfl | rfl | rfl | rfl <;> simp [PState.fixtureOf]

/-- C4 (witness): the invariant evaluated on the fixture loaded from the
first sample entry. -/
theorem C4_load_invariant_witness :
    (unusedVariableFixture.clean ||
      !unusedVariableFixture.expected_tags.isEmpty) = true :=
  (C4_load_invariant sampleEntries unusedVariableFixture (by decide)).1

/-- C5: a suite run processes all fixtures — the result list has one entry
per fixture, each the check of the corresponding fixture, so no
per-fixture failure aborts the rest — and the exit code is 0 exactly when
every fixture passes, 1 exactly when some fixture fails, and 2 on a
harness-level error. -/
theorem C5_suite_exit_codes (inv : Fixture → Except HarnessError ToolRun)
    (prs : ToolRun → Except HarnessError ViolationReport)
    (fs : List Fixture) (e : HarnessError) (i : Nat) :
    (runSuite inv prs fs).length = fs.length ∧
    (runSuite inv prs fs)[i]? = (fs[i]?).map (checkFixture inv prs) ∧
    (suiteExitCode (Except.ok fs) inv prs = 0 ↔
      ∀ r ∈ runSuite inv prs fs, r.passed = true) ∧
    (suiteExitCode (Except.ok fs) inv prs = 1 ↔
      ∃ r ∈ runSuite inv prs fs, r.passed = false) ∧
    suiteExitCode (Except.error e) inv prs = 2 := by
  have hval : suiteExitCode (Except.ok fs) inv prs =
      if (runSuite inv prs fs).all (·.passed) then 0 else 1 := rfl
  refine ⟨List.length_map _ _, List.getElem?_map _ _ _, ?_, ?_, rfl⟩
  · cases hb : (runSuite inv prs fs).all (·.passed) with
    | true =>
      rw [hval, if_pos hb]
      simp only [List.all_eq_true] at hb
      exact ⟨fun _ => hb, fun _ => rfl⟩
    | false =>
      rw [hval, if_neg (by simp [hb])]
      have hnot : ¬∀ r ∈ runSuite inv prs fs, r.passed = true := by
        intro hall
        rw [← List.all_eq_true] at hall
        exact absurd hall (by simp [hb])
      exact ⟨fun h => absurd h one_ne_zero, fun hp => absurd hp hnot⟩
  · cases hb : (runSuite inv prs fs).all (·.passed) with
    | true =>
      rw [hval, if_pos hb]
      simp only [List.all_eq_true] at hb
      constructor
      · intro h
        exact absurd h zero_ne_one
      · rintro ⟨r, hr, hp⟩
        exact absurd (hb r hr) (by simp [hp])
    | false =>
      rw [hval, if_neg (by simp [hb])]
      have hnot : ¬∀ r ∈ runSuite inv prs fs, r.passed = true := by
        intro hall
        rw [← List.all_eq_true] at hall
        exact absurd hall (by simp [hb])
      push_neg at hnot
      obtain ⟨r, hr, hp⟩ := hnot
      refine ⟨fun _ => ⟨r, hr, ?_⟩, fun _ => rfl⟩
      simpa using hp

/-- C6: `parse` fails with ParseError exactly when the output matches no
known tool's schema for the declared identity, and an individual
unrecognized line inside otherwise-recognized output is skipped — it
contributes no tags and no error. -/
theorem C6_parse_skips_unrecognized (v : ParserVariant) (tool : String)
    (ls₁ ls₂ : List String) (l : String) (run : ToolRun)
    (hv : knownVariants.find? (fun w => w.tool == tool) = some v)
    (hl : v.extractLine l = none)
    (hschema : schemaOk v (ls₁ ++ l :: ls₂) = true) :
    (∀ (t : String) (r : ToolRun),
      parse t r = Except.error HarnessError.parseError ↔
        matchesKnownSchema t r.stdoutLines = false) ∧
    parse tool { run with stdoutLines := ls₁ ++ l :: ls₂ } =
      Except.ok ⟨(ls₁ ++ ls₂).filterMap v.extractLine⟩ := by
  constructor
  · intro t r
    simp only [parse, matchesKnownSchema, knownVariants, List.find?,
      List.any_cons, List.any_nil, Bool.or_false]
    cases h1 : (clippyVariant.tool == t) with
    | true =>
      have ht : clippyVariant.tool = t := eq_of_beq h1
      have h2 : (rustfmtVariant.tool == t) = false := by
        rw [← ht]
        decide
      simp only [h1, h2, Bool.true_and, Bool.false_and, Bool.or_false]
      cases hs : schemaOk clippyVariant r.stdoutLines with
      | true => simp [hs]
      | false => simp [hs]
    | false =>
      simp only [h1, Bool.false_and, Bool.false_or]
      cases h2 : (rustfmtVariant.tool == t) with
      | true =>
        simp only [h2, Bool.true_and]
        cases hs : schemaOk rustfmtVariant r.stdoutLines with
        | true => simp [hs]
        | false => simp [hs]
      | false =>
        simp [h2]
  · simp only [parse, hv, hschema, if_true]
    simp [List.filterMap_append, List.filterMap_cons, hl]

/-- C6 (witness): parsing a Clippy run whose output holds one warning line
and one banner line yields exactly the tag of the warning line. -/
theorem C6_parse_skips_unrecognized_witness :
    parse "clippy" bannersRun =
      Except.ok ⟨[("unused_variable", 0, 0)]⟩ := by
  have h := (C6_parse_skips_unrecognized clippyVariant "clippy"
      ["warning: clippy::unused_variable --> src/main.rs:34:9"] []
      "Checking clippy_violations v0.1.0" bannersRun rfl (by decide)
      (by decide)).2
  exact h.trans (by decide)

/-- C7: an invocation whose running time exceeds the configured timeout
terminates at the deadline with the sentinel exit code and a prefix of the
full output as partial output, and the fixture's outcome is a timeout
failure. -/
theorem C7_timeout_failure (cfg : ToolConfig) (b : ToolBehavior)
    (f : Fixture) (prs : ToolRun → Except HarnessError ViolationReport)
    (h : cfg.timeoutSec < b.duration) :
    (runTool cfg b).timedOut = true ∧
    (runTool cfg b).exitCode = timeoutSentinel ∧
    List.IsPrefix (runTool cfg b).stdoutLines b.outputLines ∧
    (runTool cfg b).duration ≤ cfg.timeoutSec ∧
    checkFixture (fun _ => Except.ok (runTool cfg b)) prs f =
      failResult HarnessError.timeoutError := by
  have hrun : runTool cfg b =
      { exitCode := timeoutSentinel
        stdoutLines := b.outputLines.take cfg.timeoutSec
        stderrLines := b.stderrLines.take cfg.timeoutSec
        duration := cfg.timeoutSec
        timedOut := true } := by
    unfold runTool
    rw [if_pos h]
  refine ⟨by rw [hrun], by rw [hrun], ?_, by rw [hrun], ?_⟩
  · rw [hrun]
    exact List.take_prefix _ _
  · unfold checkFixture
    rw [hrun]
    dsimp only
    rw [if_pos rfl]

/-- C7 (witness): a five-second tool under a one-second timeout yields the
sentinel exit code and a timeout failure for the fixture. -/
theorem C7_timeout_failure_witness :
    (runTool shortTimeoutConfig slowBehavior).exitCode = timeoutSentinel ∧
    (runTool shortTimeoutConfig slowBehavior).timedOut = true ∧
    checkFixture
      (fun _ => Except.ok (runTool shortTimeoutConfig slowBehavior))
      clippyParse unusedVariableFixture =
      failResult HarnessError.timeoutError := by
  have h := C7_timeout_failure shortTimeoutConfig slowBehavior
      unusedVariableFixture clippyParse (by decide)
  exact ⟨h.2.1, h.1, h.2.2.2.2⟩

/-- C8: checking the same fixture twice with the same (deterministic)
invoker and parser yields identical ConformanceResults — same pass/fail
status and same recorded missing and unexpected tag sets. -/
theorem C8_idempotent (inv₁ inv₂ : Fixture → Except HarnessError ToolRun)
    (prs₁ prs₂ : ToolRun → Except HarnessError ViolationReport)
    (f : Fixture) (hinv : inv₁ = inv₂) (hprs : prs₁ = prs₂) :
    checkFixture inv₁ prs₁ f = checkFixture inv₂ prs₂ f ∧
    (checkFixture inv₁ prs₁ f).passed = (checkFixture inv₂ prs₂ f).passed ∧
    (checkFixture inv₁ prs₁ f).missing =
      (checkFixture inv₂ prs₂ f).missing ∧
    (checkFixture inv₁ prs₁ f).unexpected =
      (checkFixture inv₂ prs₂ f).unexpected := by
  subst hinv
  subst hprs
  exact ⟨rfl, rfl, rfl, rfl⟩

/-- C8 (witness): two runs of the unused-variable fixture against the same
deterministic invoker and parser agree. -/
theorem C8_idempotent_witness :
    checkFixture sampleInvoker clippyParse unusedVariableFixture =
      checkFixture sampleInvoker clippyParse unusedVariableFixture :=
  (C8_idempotent sampleInvoker sampleInvoker clippyParse clippyParse
    unusedVariableFixture rfl rfl).1

/-- C9 (counterexample): under the `i32` wrapping semantics of the source,
`process_data [2^30]` doubles the in-range positive element `2^30` into
`-2^31`, so the output is neither the mathematical doubling of the
positive elements nor positive everywhere. -/
theorem C9_counterexample :
    process_data [(2 : Int) ^ 30] = [-(2 ^ 31)] ∧
    process_data [(2 : Int) ^ 30] ≠
      (([(2 : Int) ^ 30].filter fun x => decide (0 < x)).map
        fun x => 2 * x) ∧
    ¬(∀ y ∈ process_data [(2 : Int) ^ 30], 0 < y) := by
  decide

/-- C9 (amended): for every input vector whose positive elements are below
`2^30` (so doubling cannot overflow `i32`), `process_data` equals mapping
doubling over the strictly positive elements in order, and every element
of the output is positive and even. -/
theorem C9_process_data (data : List Int)
    (hpos : ∀ x ∈ data, 0 < x → x < 2 ^ 30) :
    process_data data =
      (data.filter fun x => decide (0 < x)).map (fun x => 2 * x) ∧
    (∀ y ∈ process_data data, 0 < y) ∧
    (∀ y ∈ process_data data, 2 ∣ y) := by
  have hmem : ∀ x ∈ data.filter (fun x => decide (0 < x)),
      0 < x ∧ x < 2 ^ 30 := by
    intro x hx
    rw [List.mem_filter] at hx
    have h0 : 0 < x := by simpa using hx.2
    exact ⟨h0, hpos x hx.1 h0⟩
  have heq : process_data data =
      (data.filter fun x => decide (0 < x)).map (fun x => 2 * x) := by
    unfold process_data
    apply List.map_congr_left
    intro x hx
    obtain ⟨h0, h1⟩ := hmem x hx
    rw [wrap32_double_eq h0 h1]
    ring
  refine ⟨heq, ?_, ?_⟩
  · intro y hy
    rw [heq] at hy
    obtain ⟨x, hx, rfl⟩ := List.mem_map.mp hy
    have h0 := (hmem x hx).1
    omega
  · intro y hy
    rw [heq] at hy
    obtain ⟨x, hx, rfl⟩ := List.mem_map.mp hy
    exact ⟨x, rfl⟩

/-- C9 (witness): the amended statement evaluated on `[1, -2, 3]`, whose
output is `[2, 6]`. -/
theorem C9_process_data_witness : process_data [1, -2, 3] = [2, 6] := by
  have h := (C9_process_data [1, -2, 3] (by decide)).1
  exact h.trans (by decide)

/-- C10: constructing a Person round-trips — `Person::new(name, age)`
stores exactly the given name (returned by `get_name`) and the given
age. -/
theorem C10_person_roundtrip (name : String) (age : Nat) :
    (Person.new name age).get_name = name ∧
    (Person.new name age).age = age :=
  ⟨rfl, rfl⟩
